import Mathlib

/-!
Shallow embedding of the vagrant-mcp-server command dispatcher
(src/vagrant-mcp-server.py).

The program is a shim: each MCP tool handler validates its parameters,
builds an argument list for the external `vagrant` tool, resolves a fixed
working directory, runs pre-flight filesystem checks, spawns the tool as a
child process, and formats a textual report.

Modelling choices:
* A Python optional string parameter (absent or a string) is `Option String`;
  Python truthiness of such a value is `opt_str_truthy`.  A Python optional
  boolean with a default is `Option Bool` read through `python_truthy_bool`.
* The filesystem and the child process are an abstract `World`:
  `path_exists` models `os.path.exists`, and `spawn` models
  `asyncio.create_subprocess_exec` followed by `communicate`, returning
  either a completed process (exit code plus decoded stdout and stderr) or a
  raised exception carrying its message.  Stream decoding with
  `errors=replace` never raises, so decoding lives inside the oracle.
* `run_vagrant_command` returns the result dictionary together with
  `Option SpawnCall`: `some c` records the one spawn invocation (argument
  vector, working directory, and the text supplied on standard input, `none`
  when the input stream is not opened); `none` means the pre-flight checks
  short-circuited and no spawn was attempted.
* The result dictionary of the Python code sometimes omits the
  `working_directory` key, hence that field is `Option String` here, and
  `Option.getD "unknown"` models `dict.get` with default.
-/

namespace VagrantMCP

/-- Python truthiness of an optional string parameter: absent and the empty
string are falsy, every other string is truthy. -/
def opt_str_truthy : Option String → Bool
  | none => false
  | some s => s != ""

/-- Python truthiness of an optional boolean parameter read with a `False`
default, as in `args.get("force", False)`. -/
def python_truthy_bool (o : Option Bool) : Bool :=
  o.getD false

/-- Models `os.path.join a b` for POSIX paths as used by the source: an
absolute second component wins; otherwise a separator is inserted unless the
first component is empty or already ends with one.  Written over the
character list so that it reduces by computation. -/
def path_join (a b : String) : String :=
  if b.data.head? == some '/' then b
  else if a == "" || a.data.getLast? == some '/' then a ++ b
  else a ++ "/" ++ b

/-- Models `" ".join(cmd)`. -/
def join_space (l : List String) : String :=
  String.intercalate " " l

/-- Models Python `str.title()` restricted to ASCII alphabetic characters
(the source only applies it to snapshot action names such as "save"):
an alphabetic character is uppercased when the previous character is not
alphabetic and lowercased otherwise. -/
def python_title_aux : Bool → List Char → List Char
  | _, [] => []
  | prev_alpha, c :: cs =>
    if c.isAlpha then
      (if prev_alpha then c.toLower else c.toUpper) :: python_title_aux true cs
    else
      c :: python_title_aux false cs

/-- Models Python `str.title()` on ASCII strings. -/
def python_title (s : String) : String :=
  String.mk (python_title_aux false s.data)

/-- Outcome of one attempted child-process spawn: the process completed with
an exit code and decoded output streams, or the spawn raised an exception
with a message. -/
inductive SpawnOutcome where
  | completed (return_code : Int) (stdout stderr : String)
  | raised (msg : String)
deriving Repr, DecidableEq

/-- One recorded spawn invocation: the full argument vector, the working
directory of the child, and the text supplied to its standard input
(`none` when the input stream is not opened). -/
structure SpawnCall where
  cmd : List String
  cwd : String
  stdin : Option String
deriving Repr, DecidableEq

/-- The environment of one dispatch: the filesystem existence predicate and
the child-process oracle. -/
structure World where
  path_exists : String → Bool
  spawn : List String → String → Option String → SpawnOutcome

/-- The result dictionary built by `_run_vagrant_command`.  `working_directory`
is `none` for the synthetic pre-flight results, whose dictionaries omit the
key. -/
structure CommandResult where
  command : String
  return_code : Int
  stdout : String
  stderr : String
  success : Bool
  working_directory : Option String
deriving Repr, DecidableEq

/-- Models `VagrantMCPServer.__init__`: the base projects directory is read once from
the `VAGRANT_PROJECTS_DIR` environment variable, defaulting to
`/vagrant-projects`. -/
def resolve_base_projects_dir (env : String → Option String) : String :=
  (env "VAGRANT_PROJECTS_DIR").getD "/vagrant-projects"

/-- Models `_get_working_directory`: the requested directory is ignored and the base
projects directory is always returned. -/
def get_working_directory (base : String) (_requested_dir : Option String) : String :=
  base

/-- The standard-input text actually supplied to the child process:
`stdin=PIPE if input_text else None` together with
`input=input_text.encode() if input_text else None`, both keyed on the
truthiness of `input_text`. -/
def effective_stdin (input_text : Option String) : Option String :=
  if opt_str_truthy input_text then input_text else none

/-- Models `_run_vagrant_command`: resolve the working directory, run the two
pre-flight checks, then spawn and capture.  Returns the result dictionary and
the spawn invocation record (`none` when pre-flight short-circuited). -/
def run_vagrant_command (base : String) (w : World) (args : List String)
    (directory : Option String) (input_text : Option String) :
    CommandResult × Option SpawnCall :=
  let cmd := "vagrant" :: args
  let cwd := get_working_directory base directory
  if !(w.path_exists cwd) then
    ({ command := join_space cmd
       return_code := -1
       stdout := ""
       stderr := "Directory does not exist: " ++ cwd
       success := false
       working_directory := none }, none)
  else if args.headD "" != "global-status" && !(w.path_exists (path_join cwd "Vagrantfile")) then
    ({ command := join_space cmd
       return_code := -1
       stdout := ""
       stderr := "No Vagrantfile found in: " ++ cwd
       success := false
       working_directory := none }, none)
  else
    let stdin_text := effective_stdin input_text
    let call : SpawnCall := { cmd := cmd, cwd := cwd, stdin := stdin_text }
    match w.spawn cmd cwd stdin_text with
    | .completed rc out err =>
      ({ command := join_space cmd
         return_code := rc
         stdout := out
         stderr := err
         success := rc == 0
         working_directory := some cwd }, some call)
    | .raised msg =>
      ({ command := join_space cmd
         return_code := -1
         stdout := ""
         stderr := msg
         success := false
         working_directory := some cwd }, some call)

/-- The shared tail of every response: full stdout on success, full stderr on
failure, exactly as each handler writes it. -/
def response_tail (r : CommandResult) : String :=
  if r.success then "Output:\n" ++ r.stdout else "Error:\n" ++ r.stderr

/-- Parameters of the vagrant_status tool. -/
structure StatusArgs where
  directory : Option String
deriving Repr, DecidableEq

/-- Parameters of the vagrant_up tool. -/
structure UpArgs where
  machine_name : Option String
  directory : Option String
  provider : Option String
  provision : Option Bool
deriving Repr, DecidableEq

/-- Parameters of the vagrant_halt tool. -/
structure HaltArgs where
  machine_name : Option String
  directory : Option String
  force : Option Bool
deriving Repr, DecidableEq

/-- Parameters of the vagrant_destroy tool. -/
structure DestroyArgs where
  machine_name : Option String
  directory : Option String
  force : Option Bool
deriving Repr, DecidableEq

/-- Parameters of the vagrant_ssh tool. -/
structure SshArgs where
  command : Option String
  machine_name : Option String
  directory : Option String
deriving Repr, DecidableEq

/-- Parameters of the vagrant_provision tool. -/
structure ProvisionArgs where
  machine_name : Option String
  directory : Option String
  provision_with : Option String
deriving Repr, DecidableEq

/-- Parameters of the vagrant_reload tool. -/
structure ReloadArgs where
  machine_name : Option String
  directory : Option String
  provision : Option Bool
deriving Repr, DecidableEq

/-- Parameters of the vagrant_snapshot tool. -/
structure SnapshotArgs where
  action : Option String
  snapshot_name : Option String
  machine_name : Option String
  directory : Option String
deriving Repr, DecidableEq

/-- Parameters of the vagrant_global_status tool. -/
structure GlobalStatusArgs where
  prune : Option Bool
deriving Repr, DecidableEq

/-- Argument construction in `_vagrant_up`. -/
def vagrant_up_args (a : UpArgs) : List String :=
  let cmd_args := ["up"]
  let cmd_args := if opt_str_truthy a.machine_name then cmd_args ++ [a.machine_name.getD ""] else cmd_args
  let cmd_args := if opt_str_truthy a.provider then cmd_args ++ ["--provider", a.provider.getD ""] else cmd_args
  let cmd_args := if a.provision == some false then cmd_args ++ ["--no-provision"] else cmd_args
  cmd_args

/-- Argument construction in `_vagrant_halt`. -/
def vagrant_halt_args (a : HaltArgs) : List String :=
  let cmd_args := ["halt"]
  let cmd_args := if opt_str_truthy a.machine_name then cmd_args ++ [a.machine_name.getD ""] else cmd_args
  let cmd_args := if python_truthy_bool a.force then cmd_args ++ ["--force"] else cmd_args
  cmd_args

/-- Argument construction in `_vagrant_destroy`. -/
def vagrant_destroy_args (a : DestroyArgs) : List String :=
  let cmd_args := ["destroy"]
  let cmd_args := if opt_str_truthy a.machine_name then cmd_args ++ [a.machine_name.getD ""] else cmd_args
  let cmd_args := if python_truthy_bool a.force then cmd_args ++ ["--force"] else cmd_args
  cmd_args

/-- The confirmation input of `_vagrant_destroy`:
`input_text = "y\n" if not args.get("force", False) else None`. -/
def destroy_input_text (a : DestroyArgs) : Option String :=
  if !(python_truthy_bool a.force) then some "y\n" else none

/-- Argument construction in `_vagrant_ssh` (after validation). -/
def vagrant_ssh_args (a : SshArgs) : List String :=
  let cmd_args := ["ssh"]
  let cmd_args := if opt_str_truthy a.machine_name then cmd_args ++ [a.machine_name.getD ""] else cmd_args
  cmd_args ++ ["-c", a.command.getD ""]

/-- Argument construction in `_vagrant_provision`. -/
def vagrant_provision_args (a : ProvisionArgs) : List String :=
  let cmd_args := ["provision"]
  let cmd_args := if opt_str_truthy a.machine_name then cmd_args ++ [a.machine_name.getD ""] else cmd_args
  let cmd_args := if opt_str_truthy a.provision_with then cmd_args ++ ["--provision-with", a.provision_with.getD ""] else cmd_args
  cmd_args

/-- Argument construction in `_vagrant_reload`. -/
def vagrant_reload_args (a : ReloadArgs) : List String :=
  let cmd_args := ["reload"]
  let cmd_args := if opt_str_truthy a.machine_name then cmd_args ++ [a.machine_name.getD ""] else cmd_args
  let cmd_args := if python_truthy_bool a.provision then cmd_args ++ ["--provision"] else cmd_args
  cmd_args

/-- Argument construction in `_vagrant_snapshot` (after validation). -/
def vagrant_snapshot_args (a : SnapshotArgs) : List String :=
  let cmd_args := ["snapshot", a.action.getD ""]
  let cmd_args := if opt_str_truthy a.snapshot_name then cmd_args ++ [a.snapshot_name.getD ""] else cmd_args
  let cmd_args := if opt_str_truthy a.machine_name then cmd_args ++ [a.machine_name.getD ""] else cmd_args
  cmd_args

/-- Argument construction in `_vagrant_global_status`. -/
def vagrant_global_status_args (a : GlobalStatusArgs) : List String :=
  let cmd_args := ["global-status"]
  let cmd_args := if python_truthy_bool a.prune then cmd_args ++ ["--prune"] else cmd_args
  cmd_args

/-- A handler outcome: `Except.error` is a raised `ValueError` (caught at the
dispatch boundary), `Except.ok` carries the response text and the recorded
spawn invocation, if any. -/
abbrev HandlerResult := Except String (String × Option SpawnCall)

/-- The spawn invocation recorded by a handler outcome, if any: a raised
validation error reaches no spawn. -/
def spawn_of : HandlerResult → Option SpawnCall
  | .ok (_, sc) => sc
  | .error _ => none

/-- Models `_vagrant_status`. -/
def vagrant_status (base : String) (w : World) (a : StatusArgs) : HandlerResult :=
  let pr := run_vagrant_command base w ["status"] a.directory none
  let result := pr.1
  let response := "Vagrant Status:\n"
    ++ "Command: " ++ result.command ++ "\n"
    ++ "Working Directory: " ++ result.working_directory.getD "unknown" ++ "\n"
    ++ "Return Code: " ++ toString result.return_code ++ "\n\n"
    ++ response_tail result
  .ok (response, pr.2)

/-- Models `_vagrant_up`. -/
def vagrant_up (base : String) (w : World) (a : UpArgs) : HandlerResult :=
  let pr := run_vagrant_command base w (vagrant_up_args a) a.directory none
  let result := pr.1
  let response := "Vagrant Up:\n"
    ++ "Command: " ++ result.command ++ "\n"
    ++ "Return Code: " ++ toString result.return_code ++ "\n\n"
    ++ response_tail result
  .ok (response, pr.2)

/-- Models `_vagrant_halt`. -/
def vagrant_halt (base : String) (w : World) (a : HaltArgs) : HandlerResult :=
  let pr := run_vagrant_command base w (vagrant_halt_args a) a.directory none
  let result := pr.1
  let response := "Vagrant Halt:\n"
    ++ "Command: " ++ result.command ++ "\n"
    ++ "Return Code: " ++ toString result.return_code ++ "\n\n"
    ++ response_tail result
  .ok (response, pr.2)

/-- Models `_vagrant_destroy`. -/
def vagrant_destroy (base : String) (w : World) (a : DestroyArgs) : HandlerResult :=
  let pr := run_vagrant_command base w (vagrant_destroy_args a) a.directory (destroy_input_text a)
  let result := pr.1
  let response := "Vagrant Destroy:\n"
    ++ "Command: " ++ result.command ++ "\n"
    ++ "Return Code: " ++ toString result.return_code ++ "\n\n"
    ++ response_tail result
  .ok (response, pr.2)

/-- Models `_vagrant_ssh`, including its validation raise. -/
def vagrant_ssh (base : String) (w : World) (a : SshArgs) : HandlerResult :=
  if !(opt_str_truthy a.command) then
    .error "command parameter is required"
  else
    let pr := run_vagrant_command base w (vagrant_ssh_args a) a.directory none
    let result := pr.1
    let response := "Vagrant SSH Command:\n"
      ++ "Command: " ++ result.command ++ "\n"
      ++ "Return Code: " ++ toString result.return_code ++ "\n\n"
      ++ response_tail result
    .ok (response, pr.2)

/-- Models `_vagrant_provision`. -/
def vagrant_provision (base : String) (w : World) (a : ProvisionArgs) : HandlerResult :=
  let pr := run_vagrant_command base w (vagrant_provision_args a) a.directory none
  let result := pr.1
  let response := "Vagrant Provision:\n"
    ++ "Command: " ++ result.command ++ "\n"
    ++ "Return Code: " ++ toString result.return_code ++ "\n\n"
    ++ response_tail result
  .ok (response, pr.2)

/-- Models `_vagrant_reload`. -/
def vagrant_reload (base : String) (w : World) (a : ReloadArgs) : HandlerResult :=
  let pr := run_vagrant_command base w (vagrant_reload_args a) a.directory none
  let result := pr.1
  let response := "Vagrant Reload:\n"
    ++ "Command: " ++ result.command ++ "\n"
    ++ "Return Code: " ++ toString result.return_code ++ "\n\n"
    ++ response_tail result
  .ok (response, pr.2)

/-- Models `_vagrant_snapshot`, including its two validation raises. -/
def vagrant_snapshot (base : String) (w : World) (a : SnapshotArgs) : HandlerResult :=
  if !(opt_str_truthy a.action) then
    .error "action parameter is required"
  else
    let action := a.action.getD ""
    if ["save", "restore", "delete"].contains action && !(opt_str_truthy a.snapshot_name) then
      .error ("snapshot_name is required for " ++ action ++ " action")
    else
      let pr := run_vagrant_command base w (vagrant_snapshot_args a) a.directory none
      let result := pr.1
      let response := "Vagrant Snapshot " ++ python_title action ++ ":\n"
        ++ "Command: " ++ result.command ++ "\n"
        ++ "Return Code: " ++ toString result.return_code ++ "\n\n"
        ++ response_tail result
      .ok (response, pr.2)

/-- Models `_vagrant_global_status`; the source passes no directory argument. -/
def vagrant_global_status (base : String) (w : World) (a : GlobalStatusArgs) : HandlerResult :=
  let pr := run_vagrant_command base w (vagrant_global_status_args a) none none
  let result := pr.1
  let response := "Vagrant Global Status:\n"
    ++ "Command: " ++ result.command ++ "\n"
    ++ "Return Code: " ++ toString result.return_code ++ "\n\n"
    ++ response_tail result
  .ok (response, pr.2)

/-- A tool call request: the tool name and its decoded arguments. -/
inductive ToolRequest where
  | status (a : StatusArgs)
  | up (a : UpArgs)
  | halt (a : HaltArgs)
  | destroy (a : DestroyArgs)
  | ssh (a : SshArgs)
  | provisionOp (a : ProvisionArgs)
  | reload (a : ReloadArgs)
  | snapshot (a : SnapshotArgs)
  | globalStatus (a : GlobalStatusArgs)
  | unknown (name : String)

/-- The dispatch inside `handle_call_tool`, before the surrounding
`try/except`: an unknown tool name raises a `ValueError`. -/
def dispatch_tool (base : String) (w : World) : ToolRequest → HandlerResult
  | .status a => vagrant_status base w a
  | .up a => vagrant_up base w a
  | .halt a => vagrant_halt base w a
  | .destroy a => vagrant_destroy base w a
  | .ssh a => vagrant_ssh base w a
  | .provisionOp a => vagrant_provision base w a
  | .reload a => vagrant_reload base w a
  | .snapshot a => vagrant_snapshot base w a
  | .globalStatus a => vagrant_global_status base w a
  | .unknown n => .error ("Unknown tool: " ++ n)

/-- Models `handle_call_tool`: every raised exception is caught and converted to a
plain-text response of the form `Error: <message>`. -/
def handle_call_tool (base : String) (w : World) (req : ToolRequest) : String :=
  match dispatch_tool base w req with
  | .ok (r, _) => r
  | .error e => "Error: " ++ e

/-! Concrete worlds used to evaluate the theorems on specific inputs. -/

/-- A world where every path exists and every spawn completes with exit
code 0, stdout `demo-out` and stderr `demo-err`. -/
def demo_world_ok : World :=
  { path_exists := fun _ => true
    spawn := fun _ _ _ => .completed 0 "demo-out" "demo-err" }

/-- A world where no path exists. -/
def demo_world_missing_dir : World :=
  { path_exists := fun _ => false
    spawn := fun _ _ _ => .completed 0 "demo-out" "demo-err" }

/-- A world where only the base projects directory exists (no marker file). -/
def demo_world_no_vagrantfile : World :=
  { path_exists := fun p => p == "/vagrant-projects"
    spawn := fun _ _ _ => .completed 0 "demo-out" "demo-err" }

/-- A world where every path exists and every spawn attempt raises. -/
def demo_world_raise : World :=
  { path_exists := fun _ => true
    spawn := fun _ _ _ => .raised "FileNotFoundError: vagrant" }

/-! Helper lemmas shared by the claim theorems. -/

/-- In every branch of `run_vagrant_command`, the success flag of the result
equals the comparison of the recorded return code with zero. -/
theorem run_success_eq (base : String) (w : World) (args : List String)
    (dir inp : Option String) :
    (run_vagrant_command base w args dir inp).1.success
      = ((run_vagrant_command base w args dir inp).1.return_code == 0) := by
  unfold run_vagrant_command
  dsimp only
  split
  · simp
  · split
    · simp
    · split <;> simp

/-- Whenever `run_vagrant_command` records a spawn invocation, that invocation
used the full command vector, the base directory as working directory, and the
effective standard-input text. -/
theorem run_spawn_call_eq (base : String) (w : World) (args : List String)
    (dir inp : Option String) (c : SpawnCall)
    (h : (run_vagrant_command base w args dir inp).2 = some c) :
    c = { cmd := "vagrant" :: args, cwd := base, stdin := effective_stdin inp } := by
  unfold run_vagrant_command at h
  dsimp only [get_working_directory] at h
  split at h
  · simp at h
  · split at h
    · simp at h
    · split at h <;> (simp at h; exact h.symm)

/-- C1: the start (vagrant_up) argument list is the base token, then the
machine name when truthy, then the provider pair when truthy, then the
no-provision flag when provision is explicitly false, in that order; in
particular the example parameters produce the example sequence. -/
theorem c1_up_argument_construction :
    (∀ a : UpArgs,
      vagrant_up_args a =
        ["up"]
          ++ (if opt_str_truthy a.machine_name then [a.machine_name.getD ""] else [])
          ++ (if opt_str_truthy a.provider then ["--provider", a.provider.getD ""] else [])
          ++ (if a.provision == some false then ["--no-provision"] else []))
    ∧ vagrant_up_args
        { machine_name := some "web", directory := none,
          provider := some "virtualbox", provision := some false }
      = ["up", "web", "--provider", "virtualbox", "--no-provision"] := by
  constructor
  · intro a
    unfold vagrant_up_args
    dsimp only
    split <;> split <;> split <;> simp
  · decide

/-- C10: for every operation, an optional string parameter supplied as the
empty string contributes no token, exactly like an absent parameter; in
particular stop with an empty machine name builds just the base token and
start with an empty provider omits the provider tokens. -/
theorem c10_empty_string_params_as_absent :
    (∀ d p pr, vagrant_up_args { machine_name := some "", directory := d, provider := p, provision := pr }
        = vagrant_up_args { machine_name := none, directory := d, provider := p, provision := pr })
  ∧ (∀ m d pr, vagrant_up_args { machine_name := m, directory := d, provider := some "", provision := pr }
        = vagrant_up_args { machine_name := m, directory := d, provider := none, provision := pr })
  ∧ (∀ d f, vagrant_halt_args { machine_name := some "", directory := d, force := f }
        = vagrant_halt_args { machine_name := none, directory := d, force := f })
  ∧ (∀ d f, vagrant_destroy_args { machine_name := some "", directory := d, force := f }
        = vagrant_destroy_args { machine_name := none, directory := d, force := f })
  ∧ (∀ c d, vagrant_ssh_args { command := c, machine_name := some "", directory := d }
        = vagrant_ssh_args { command := c, machine_name := none, directory := d })
  ∧ (∀ d pw, vagrant_provision_args { machine_name := some "", directory := d, provision_with := pw }
        = vagrant_provision_args { machine_name := none, directory := d, provision_with := pw })
  ∧ (∀ m d, vagrant_provision_args { machine_name := m, directory := d, provision_with := some "" }
        = vagrant_provision_args { machine_name := m, directory := d, provision_with := none })
  ∧ (∀ d pr, vagrant_reload_args { machine_name := some "", directory := d, provision := pr }
        = vagrant_reload_args { machine_name := none, directory := d, provision := pr })
  ∧ (∀ act sn d, vagrant_snapshot_args { action := act, snapshot_name := sn, machine_name := some "", directory := d }
        = vagrant_snapshot_args { action := act, snapshot_name := sn, machine_name := none, directory := d })
  ∧ (∀ act m d, vagrant_snapshot_args { action := act, snapshot_name := some "", machine_name := m, directory := d }
        = vagrant_snapshot_args { action := act, snapshot_name := none, machine_name := m, directory := d })
  ∧ vagrant_halt_args { machine_name := some "", directory := none, force := none } = ["halt"]
  ∧ vagrant_up_args { machine_name := none, directory := none, provider := some "", provision := none } = ["up"] := by
  refine ⟨fun d p pr => rfl, fun m d pr => rfl, fun d f => rfl, fun d f => rfl,
    fun c d => rfl, fun d pw => rfl, fun m d => rfl, fun d pr => rfl,
    fun act sn d => rfl, fun act m d => rfl, by decide, by decide⟩

/-- C5: destroy without force supplies exactly the confirmation line
consisting of `y` and a line terminator to the standard input of the child,
and destroy with force supplies none, in which case the input stream is not
opened. -/
theorem c5_destroy_confirmation_input (base : String) (w : World) (a : DestroyArgs) :
    (python_truthy_bool a.force = false →
       destroy_input_text a = some "y\n"
       ∧ ∀ c : SpawnCall, spawn_of (vagrant_destroy base w a) = some c →
           c.stdin = some "y\n")
  ∧ (python_truthy_bool a.force = true →
       destroy_input_text a = none
       ∧ ∀ c : SpawnCall, spawn_of (vagrant_destroy base w a) = some c →
           c.stdin = none) := by
  have hsp : spawn_of (vagrant_destroy base w a)
      = (run_vagrant_command base w (vagrant_destroy_args a) a.directory (destroy_input_text a)).2 := rfl
  constructor
  · intro hf
    have hin : destroy_input_text a = some "y\n" := by
      simp [destroy_input_text, hf]
    refine ⟨hin, fun c hc => ?_⟩
    rw [hsp] at hc
    have := run_spawn_call_eq _ _ _ _ _ _ hc
    rw [this]
    simp [hin, effective_stdin, opt_str_truthy]
  · intro hf
    have hin : destroy_input_text a = none := by
      simp [destroy_input_text, hf]
    refine ⟨hin, fun c hc => ?_⟩
    rw [hsp] at hc
    have := run_spawn_call_eq _ _ _ _ _ _ hc
    rw [this]
    simp [hin, effective_stdin, opt_str_truthy]

/-- Witness for C5 at concrete inputs: force absent gives the confirmation
line, force requested gives a closed standard-input stream. -/
theorem c5_destroy_confirmation_input_witness :
    destroy_input_text { machine_name := none, directory := none, force := none } = some "y\n"
    ∧ (∀ c : SpawnCall,
        spawn_of (vagrant_destroy "/vagrant-projects" demo_world_ok
          { machine_name := none, directory := none, force := some true }) = some c →
        c.stdin = none) := by
  refine ⟨?_, ?_⟩
  · exact ((c5_destroy_confirmation_input "/vagrant-projects" demo_world_ok
      { machine_name := none, directory := none, force := none }).1 (by decide)).1
  · exact ((c5_destroy_confirmation_input "/vagrant-projects" demo_world_ok
      { machine_name := none, directory := none, force := some true }).2 (by decide)).2

/-- C2: a remote-execute request without a truthy command parameter, a
snapshot request without a truthy action, and a snapshot request whose action
is save, restore or delete without a truthy snapshot name, all raise a
validation error that the dispatch boundary converts to a textual error
response, and no spawn is recorded. -/
theorem c2_required_parameter_validation (base : String) (w : World) :
    (∀ a : SshArgs, opt_str_truthy a.command = false →
       vagrant_ssh base w a = .error "command parameter is required"
       ∧ spawn_of (vagrant_ssh base w a) = none
       ∧ handle_call_tool base w (.ssh a) = "Error: " ++ "command parameter is required")
  ∧ (∀ a : SnapshotArgs, opt_str_truthy a.action = false →
       vagrant_snapshot base w a = .error "action parameter is required"
       ∧ spawn_of (vagrant_snapshot base w a) = none
       ∧ handle_call_tool base w (.snapshot a) = "Error: " ++ "action parameter is required")
  ∧ (∀ a : SnapshotArgs, ∀ act : String,
       a.action = some act → act ≠ "" →
       (["save", "restore", "delete"] : List String).contains act = true →
       opt_str_truthy a.snapshot_name = false →
       vagrant_snapshot base w a = .error ("snapshot_name is required for " ++ act ++ " action")
       ∧ spawn_of (vagrant_snapshot base w a) = none
       ∧ handle_call_tool base w (.snapshot a)
           = "Error: " ++ ("snapshot_name is required for " ++ act ++ " action")) := by
  refine ⟨fun a h => ?_, fun a h => ?_, fun a act ha hne hmem hsn => ?_⟩
  · have he : vagrant_ssh base w a = .error "command parameter is required" := by
      simp [vagrant_ssh, h]
    exact ⟨he, by simp [spawn_of, he], by simp [handle_call_tool, dispatch_tool, he]⟩
  · have he : vagrant_snapshot base w a = .error "action parameter is required" := by
      simp [vagrant_snapshot, h]
    exact ⟨he, by simp [spawn_of, he], by simp [handle_call_tool, dispatch_tool, he]⟩
  · have htr : opt_str_truthy (some act) = true := by
      simp [opt_str_truthy, hne]
    have hmem2 : act = "save" ∨ act = "restore" ∨ act = "delete" := by
      simpa using hmem
    have he : vagrant_snapshot base w a
        = .error ("snapshot_name is required for " ++ act ++ " action") := by
      simp [vagrant_snapshot, ha, htr, hsn]
      tauto
    exact ⟨he, by simp [spawn_of, he], by simp [handle_call_tool, dispatch_tool, he]⟩

/-- Witness for C2 at concrete inputs: a missing command, a missing action,
and a restore action without a snapshot name, are each reported as errors. -/
theorem c2_required_parameter_validation_witness :
    vagrant_ssh "/vagrant-projects" demo_world_ok
        { command := none, machine_name := none, directory := none }
      = .error "command parameter is required"
    ∧ vagrant_snapshot "/vagrant-projects" demo_world_ok
        { action := none, snapshot_name := none, machine_name := none, directory := none }
      = .error "action parameter is required"
    ∧ vagrant_snapshot "/vagrant-projects" demo_world_ok
        { action := some "restore", snapshot_name := none, machine_name := none, directory := none }
      = .error ("snapshot_name is required for " ++ "restore" ++ " action") := by
  have h := c2_required_parameter_validation "/vagrant-projects" demo_world_ok
  exact ⟨(h.1 _ (by decide)).1, (h.2.1 _ (by decide)).1,
    (h.2.2 _ "restore" rfl (by decide) (by decide) (by decide)).1⟩

/-- Counterexample for C3: a snapshot request whose action is the non-empty
string frobnicate, outside the documented set, is not rejected: the handler
returns a successful response and records a spawn of
vagrant snapshot frobnicate. -/
theorem c3_out_of_set_action_counterexample :
    (vagrant_snapshot "/vagrant-projects" demo_world_ok
        { action := some "frobnicate", snapshot_name := none, machine_name := none, directory := none }).isOk = true
    ∧ spawn_of (vagrant_snapshot "/vagrant-projects" demo_world_ok
        { action := some "frobnicate", snapshot_name := none, machine_name := none, directory := none })
      = some { cmd := ["vagrant", "snapshot", "frobnicate"], cwd := "/vagrant-projects", stdin := none } := by
  constructor
  · rfl
  · rfl

/-- C3 amended: the snapshot handler requires only a non-empty action (an
empty or absent action is a caller error reported without a spawn); it does
not restrict the action to the set save, restore, list, delete, and a
non-empty action outside save, restore, delete is forwarded to the
subprocess whenever the pre-flight checks pass. -/
theorem c3_action_validation_amended (base : String) (w : World) (a : SnapshotArgs) :
    (opt_str_truthy a.action = false →
       vagrant_snapshot base w a = .error "action parameter is required"
       ∧ spawn_of (vagrant_snapshot base w a) = none)
  ∧ (∀ act : String, a.action = some act → act ≠ "" →
       (["save", "restore", "delete"] : List String).contains act = false →
       (vagrant_snapshot base w a).isOk = true
       ∧ (w.path_exists base = true →
          w.path_exists (path_join base "Vagrantfile") = true →
          spawn_of (vagrant_snapshot base w a)
            = some { cmd := "vagrant" :: vagrant_snapshot_args a, cwd := base,
                     stdin := none })) := by
  refine ⟨fun h => ?_, fun act ha hne hmem => ?_⟩
  · have he : vagrant_snapshot base w a = .error "action parameter is required" := by
      simp [vagrant_snapshot, h]
    exact ⟨he, by simp [spawn_of, he]⟩
  · have htr : opt_str_truthy (some act) = true := by
      simp [opt_str_truthy, hne]
    have hmem2 : ¬(act = "save" ∨ act = "restore" ∨ act = "delete") := by
      simpa using hmem
    have hok : vagrant_snapshot base w a
        = .ok ("Vagrant Snapshot " ++ python_title act ++ ":\n"
            ++ "Command: " ++ (run_vagrant_command base w (vagrant_snapshot_args a) a.directory none).1.command ++ "\n"
            ++ "Return Code: " ++ toString (run_vagrant_command base w (vagrant_snapshot_args a) a.directory none).1.return_code ++ "\n\n"
            ++ response_tail (run_vagrant_command base w (vagrant_snapshot_args a) a.directory none).1,
            (run_vagrant_command base w (vagrant_snapshot_args a) a.directory none).2) := by
      simp [vagrant_snapshot, ha, htr]
      exact fun hc => absurd hc hmem2
    refine ⟨by rw [hok]; rfl, fun hdir hvf => ?_⟩
    have hrun : (run_vagrant_command base w (vagrant_snapshot_args a) a.directory none).2
        = some { cmd := "vagrant" :: vagrant_snapshot_args a, cwd := base, stdin := none } := by
      unfold run_vagrant_command
      dsimp only [get_working_directory]
      rw [hdir, hvf]
      simp [effective_stdin, opt_str_truthy]
      split <;> rfl
    have hsc : spawn_of (vagrant_snapshot base w a)
        = (run_vagrant_command base w (vagrant_snapshot_args a) a.directory none).2 := by
      rw [hok]
      rfl
    rw [hsc, hrun]

/-- Witness for C3 amended at concrete inputs: an absent action is an error,
and the non-empty action wobble passes validation. -/
theorem c3_action_validation_amended_witness :
    vagrant_snapshot "/vagrant-projects" demo_world_ok
        { action := none, snapshot_name := none, machine_name := none, directory := none }
      = .error "action parameter is required"
    ∧ (vagrant_snapshot "/vagrant-projects" demo_world_ok
        { action := some "wobble", snapshot_name := none, machine_name := none, directory := none }).isOk = true := by
  refine ⟨?_, ?_⟩
  · exact ((c3_action_validation_amended "/vagrant-projects" demo_world_ok
      { action := none, snapshot_name := none, machine_name := none, directory := none }).1 (by decide)).1
  · exact ((c3_action_validation_amended "/vagrant-projects" demo_world_ok
      { action := some "wobble", snapshot_name := none, machine_name := none, directory := none }).2
      "wobble" rfl (by decide) (by decide)).1

/-- C4: a missing working directory yields the synthetic result with exit
code -1 naming the missing directory in stderr and records no spawn; an
existing directory without the marker file does the same, naming the missing
marker, for every argument list whose base token is not global-status; a
global-status invocation is unaffected by the marker file check; and the base
token of each operation is as listed, so exactly the global-status operation
bypasses the marker check. -/
theorem c4_preflight_checks (base : String) (w : World) (args : List String)
    (dir inp : Option String) :
    (w.path_exists base = false →
       run_vagrant_command base w args dir inp
         = ({ command := join_space ("vagrant" :: args), return_code := -1, stdout := "",
              stderr := "Directory does not exist: " ++ base, success := false,
              working_directory := none }, none))
  ∧ (w.path_exists base = true → args.headD "" ≠ "global-status" →
       w.path_exists (path_join base "Vagrantfile") = false →
       run_vagrant_command base w args dir inp
         = ({ command := join_space ("vagrant" :: args), return_code := -1, stdout := "",
              stderr := "No Vagrantfile found in: " ++ base, success := false,
              working_directory := none }, none))
  ∧ (∀ w2 : World, args.headD "" = "global-status" →
       w.path_exists base = w2.path_exists base →
       w.spawn = w2.spawn →
       run_vagrant_command base w args dir inp = run_vagrant_command base w2 args dir inp)
  ∧ (∀ a, (vagrant_up_args a).headD "" = "up")
  ∧ (∀ a, (vagrant_halt_args a).headD "" = "halt")
  ∧ (∀ a, (vagrant_destroy_args a).headD "" = "destroy")
  ∧ (∀ a, (vagrant_ssh_args a).headD "" = "ssh")
  ∧ (∀ a, (vagrant_provision_args a).headD "" = "provision")
  ∧ (∀ a, (vagrant_reload_args a).headD "" = "reload")
  ∧ (∀ a, (vagrant_snapshot_args a).headD "" = "snapshot")
  ∧ (∀ a, (vagrant_global_status_args a).headD "" = "global-status") := by
  refine ⟨fun hdir => ?_, fun hdir hgs hvf => ?_, fun w2 hgs hpe hsp => ?_,
    fun a => ?_, fun a => ?_, fun a => ?_, fun a => ?_, fun a => ?_, fun a => ?_,
    fun a => ?_, fun a => ?_⟩
  · simp [run_vagrant_command, get_working_directory, hdir]
  · have hgs2 : args.head?.getD "" ≠ "global-status" := by simpa using hgs
    simp [run_vagrant_command, get_working_directory, hdir, hgs2, hvf]
  · simp only [run_vagrant_command, get_working_directory, hgs]
    rw [← hpe, ← hsp]
    simp
  · unfold vagrant_up_args; dsimp only; split <;> split <;> split <;> rfl
  · unfold vagrant_halt_args; dsimp only; split <;> split <;> rfl
  · unfold vagrant_destroy_args; dsimp only; split <;> split <;> rfl
  · unfold vagrant_ssh_args; dsimp only; split <;> rfl
  · unfold vagrant_provision_args; dsimp only; split <;> split <;> rfl
  · unfold vagrant_reload_args; dsimp only; split <;> split <;> rfl
  · unfold vagrant_snapshot_args; dsimp only; split <;> split <;> rfl
  · unfold vagrant_global_status_args; dsimp only; split <;> rfl

/-- Witness for C4 at concrete inputs: a missing directory and a missing
marker file each yield the synthetic failed result with no spawn recorded. -/
theorem c4_preflight_checks_witness :
    run_vagrant_command "/vagrant-projects" demo_world_missing_dir ["status"] none none
      = ({ command := "vagrant status", return_code := -1, stdout := "",
           stderr := "Directory does not exist: /vagrant-projects", success := false,
           working_directory := none }, none)
    ∧ run_vagrant_command "/vagrant-projects" demo_world_no_vagrantfile ["halt"] none none
      = ({ command := "vagrant halt", return_code := -1, stdout := "",
           stderr := "No Vagrantfile found in: /vagrant-projects", success := false,
           working_directory := none }, none) := by
  have h1 := (c4_preflight_checks "/vagrant-projects" demo_world_missing_dir
    ["status"] none none).1 (by decide)
  have h2 := (c4_preflight_checks "/vagrant-projects" demo_world_no_vagrantfile
    ["halt"] none none).2.1 (by decide) (by decide) (by decide)
  rw [h1, h2]
  constructor <;> rfl

/-- Spec-shaped response body, following the spec words: the full captured
standard output verbatim when the exit code is zero, the full captured
standard error verbatim otherwise. -/
def exit_code_tail (r : CommandResult) : String :=
  if r.return_code == 0 then "Output:\n" ++ r.stdout else "Error:\n" ++ r.stderr

/-- The response tail written by the handlers, which branches on the success
flag, coincides with the spec-shaped tail, which branches on the exit code,
for every result of `run_vagrant_command`. -/
theorem response_tail_eq_exit_code_tail (base : String) (w : World)
    (args : List String) (dir inp : Option String) :
    response_tail (run_vagrant_command base w args dir inp).1
      = exit_code_tail (run_vagrant_command base w args dir inp).1 := by
  unfold response_tail exit_code_tail
  rw [run_success_eq]

/-- C6: on every result the success flag equals the comparison of the exit
code with zero, and every handler formats its response as a fixed header
followed by the full captured stdout verbatim when the exit code is zero and
the full captured stderr verbatim otherwise, never both and never
truncated. -/
theorem c6_success_flag_and_verbatim_body (base : String) (w : World) :
    (∀ (args : List String) (dir inp : Option String),
       (run_vagrant_command base w args dir inp).1.success
         = ((run_vagrant_command base w args dir inp).1.return_code == 0))
  ∧ (∀ a : StatusArgs,
       vagrant_status base w a
         = .ok ("Vagrant Status:\n"
             ++ "Command: " ++ (run_vagrant_command base w ["status"] a.directory none).1.command ++ "\n"
             ++ "Working Directory: " ++ (run_vagrant_command base w ["status"] a.directory none).1.working_directory.getD "unknown" ++ "\n"
             ++ "Return Code: " ++ toString (run_vagrant_command base w ["status"] a.directory none).1.return_code ++ "\n\n"
             ++ exit_code_tail (run_vagrant_command base w ["status"] a.directory none).1,
             (run_vagrant_command base w ["status"] a.directory none).2))
  ∧ (∀ a : UpArgs,
       vagrant_up base w a
         = .ok ("Vagrant Up:\n"
             ++ "Command: " ++ (run_vagrant_command base w (vagrant_up_args a) a.directory none).1.command ++ "\n"
             ++ "Return Code: " ++ toString (run_vagrant_command base w (vagrant_up_args a) a.directory none).1.return_code ++ "\n\n"
             ++ exit_code_tail (run_vagrant_command base w (vagrant_up_args a) a.directory none).1,
             (run_vagrant_command base w (vagrant_up_args a) a.directory none).2))
  ∧ (∀ a : HaltArgs,
       vagrant_halt base w a
         = .ok ("Vagrant Halt:\n"
             ++ "Command: " ++ (run_vagrant_command base w (vagrant_halt_args a) a.directory none).1.command ++ "\n"
             ++ "Return Code: " ++ toString (run_vagrant_command base w (vagrant_halt_args a) a.directory none).1.return_code ++ "\n\n"
             ++ exit_code_tail (run_vagrant_command base w (vagrant_halt_args a) a.directory none).1,
             (run_vagrant_command base w (vagrant_halt_args a) a.directory none).2))
  ∧ (∀ a : DestroyArgs,
       vagrant_destroy base w a
         = .ok ("Vagrant Destroy:\n"
             ++ "Command: " ++ (run_vagrant_command base w (vagrant_destroy_args a) a.directory (destroy_input_text a)).1.command ++ "\n"
             ++ "Return Code: " ++ toString (run_vagrant_command base w (vagrant_destroy_args a) a.directory (destroy_input_text a)).1.return_code ++ "\n\n"
             ++ exit_code_tail (run_vagrant_command base w (vagrant_destroy_args a) a.directory (destroy_input_text a)).1,
             (run_vagrant_command base w (vagrant_destroy_args a) a.directory (destroy_input_text a)).2))
  ∧ (∀ a : SshArgs, opt_str_truthy a.command = true →
       vagrant_ssh base w a
         = .ok ("Vagrant SSH Command:\n"
             ++ "Command: " ++ (run_vagrant_command base w (vagrant_ssh_args a) a.directory none).1.command ++ "\n"
             ++ "Return Code: " ++ toString (run_vagrant_command base w (vagrant_ssh_args a) a.directory none).1.return_code ++ "\n\n"
             ++ exit_code_tail (run_vagrant_command base w (vagrant_ssh_args a) a.directory none).1,
             (run_vagrant_command base w (vagrant_ssh_args a) a.directory none).2))
  ∧ (∀ a : ProvisionArgs,
       vagrant_provision base w a
         = .ok ("Vagrant Provision:\n"
             ++ "Command: " ++ (run_vagrant_command base w (vagrant_provision_args a) a.directory none).1.command ++ "\n"
             ++ "Return Code: " ++ toString (run_vagrant_command base w (vagrant_provision_args a) a.directory none).1.return_code ++ "\n\n"
             ++ exit_code_tail (run_vagrant_command base w (vagrant_provision_args a) a.directory none).1,
             (run_vagrant_command base w (vagrant_provision_args a) a.directory none).2))
  ∧ (∀ a : ReloadArgs,
       vagrant_reload base w a
         = .ok ("Vagrant Reload:\n"
             ++ "Command: " ++ (run_vagrant_command base w (vagrant_reload_args a) a.directory none).1.command ++ "\n"
             ++ "Return Code: " ++ toString (run_vagrant_command base w (vagrant_reload_args a) a.directory none).1.return_code ++ "\n\n"
             ++ exit_code_tail (run_vagrant_command base w (vagrant_reload_args a) a.directory none).1,
             (run_vagrant_command base w (vagrant_reload_args a) a.directory none).2))
  ∧ (∀ (a : SnapshotArgs) (act : String), a.action = some act → act ≠ "" →
       ¬((act = "save" ∨ act = "restore" ∨ act = "delete")
           ∧ opt_str_truthy a.snapshot_name = false) →
       vagrant_snapshot base w a
         = .ok ("Vagrant Snapshot " ++ python_title act ++ ":\n"
             ++ "Command: " ++ (run_vagrant_command base w (vagrant_snapshot_args a) a.directory none).1.command ++ "\n"
             ++ "Return Code: " ++ toString (run_vagrant_command base w (vagrant_snapshot_args a) a.directory none).1.return_code ++ "\n\n"
             ++ exit_code_tail (run_vagrant_command base w (vagrant_snapshot_args a) a.directory none).1,
             (run_vagrant_command base w (vagrant_snapshot_args a) a.directory none).2))
  ∧ (∀ a : GlobalStatusArgs,
       vagrant_global_status base w a
         = .ok ("Vagrant Global Status:\n"
             ++ "Command: " ++ (run_vagrant_command base w (vagrant_global_status_args a) none none).1.command ++ "\n"
             ++ "Return Code: " ++ toString (run_vagrant_command base w (vagrant_global_status_args a) none none).1.return_code ++ "\n\n"
             ++ exit_code_tail (run_vagrant_command base w (vagrant_global_status_args a) none none).1,
             (run_vagrant_command base w (vagrant_global_status_args a) none none).2)) := by
  refine ⟨run_success_eq base w, fun a => ?_, fun a => ?_, fun a => ?_, fun a => ?_,
    fun a h => ?_, fun a => ?_, fun a => ?_, fun a act ha hne hval => ?_, fun a => ?_⟩
  · unfold vagrant_status
    dsimp only
    rw [response_tail_eq_exit_code_tail]
  · unfold vagrant_up
    dsimp only
    rw [response_tail_eq_exit_code_tail]
  · unfold vagrant_halt
    dsimp only
    rw [response_tail_eq_exit_code_tail]
  · unfold vagrant_destroy
    dsimp only
    rw [response_tail_eq_exit_code_tail]
  · unfold vagrant_ssh
    rw [if_neg (by simp [h])]
    dsimp only
    rw [response_tail_eq_exit_code_tail]
  · unfold vagrant_provision
    dsimp only
    rw [response_tail_eq_exit_code_tail]
  · unfold vagrant_reload
    dsimp only
    rw [response_tail_eq_exit_code_tail]
  · have htr : opt_str_truthy (some act) = true := by
      simp [opt_str_truthy, hne]
    unfold vagrant_snapshot
    rw [ha]
    dsimp only [Option.getD_some]
    rw [if_neg (by simp [htr])]
    rw [if_neg (by simpa using hval)]
    rw [response_tail_eq_exit_code_tail]
  · unfold vagrant_global_status
    dsimp only
    rw [response_tail_eq_exit_code_tail]

/-- Witness for C6 at concrete inputs: a remote-execute call with a command
in a world where the spawn completes with exit code 0, and a snapshot list
call in a world where the spawn raises, showing the stdout body on success
and the stderr body on failure. -/
theorem c6_success_flag_and_verbatim_body_witness :
    vagrant_ssh "/vagrant-projects" demo_world_ok
        { command := some "ls", machine_name := none, directory := none }
      = .ok ("Vagrant SSH Command:\nCommand: vagrant ssh -c ls\nReturn Code: 0\n\nOutput:\ndemo-out",
             some { cmd := ["vagrant", "ssh", "-c", "ls"], cwd := "/vagrant-projects", stdin := none })
    ∧ vagrant_snapshot "/vagrant-projects" demo_world_raise
        { action := some "list", snapshot_name := none, machine_name := none, directory := none }
      = .ok ("Vagrant Snapshot List:\nCommand: vagrant snapshot list\nReturn Code: -1\n\nError:\nFileNotFoundError: vagrant",
             some { cmd := ["vagrant", "snapshot", "list"], cwd := "/vagrant-projects", stdin := none }) := by
  have h1 := (c6_success_flag_and_verbatim_body "/vagrant-projects" demo_world_ok).2.2.2.2.2.1
    { command := some "ls", machine_name := none, directory := none } (by decide)
  have h2 := (c6_success_flag_and_verbatim_body "/vagrant-projects" demo_world_raise).2.2.2.2.2.2.2.2.1
    { action := some "list", snapshot_name := none, machine_name := none, directory := none }
    "list" rfl (by decide) (by decide)
  rw [h1, h2]
  constructor <;> rfl

/-- Environment mapping used by the C7 witness. -/
def demo_env : String → Option String :=
  fun k => if k == "VAGRANT_PROJECTS_DIR" then some "/mnt/projects" else none

/-- C7: the base directory is resolved once from the environment variable
with a fixed default; the working-directory resolution ignores the requested
directory; the runner result is invariant under the caller directory
parameter; every recorded spawn runs in the base directory; and the outcome
depends on the spawn oracle only through its behavior at the base
directory. -/
theorem c7_working_directory_override (env : String → Option String) (d base : String)
    (w w2 : World) (args : List String) (dir dir2 inp : Option String) :
    (env "VAGRANT_PROJECTS_DIR" = some d → resolve_base_projects_dir env = d)
  ∧ (env "VAGRANT_PROJECTS_DIR" = none → resolve_base_projects_dir env = "/vagrant-projects")
  ∧ get_working_directory base dir = base
  ∧ run_vagrant_command base w args dir inp = run_vagrant_command base w args dir2 inp
  ∧ (∀ c : SpawnCall, (run_vagrant_command base w args dir inp).2 = some c → c.cwd = base)
  ∧ ((∀ p, w.path_exists p = w2.path_exists p) →
     (∀ c i, w.spawn c base i = w2.spawn c base i) →
     run_vagrant_command base w args dir inp = run_vagrant_command base w2 args dir2 inp) := by
  refine ⟨fun h => by simp [resolve_base_projects_dir, h],
    fun h => by simp [resolve_base_projects_dir, h],
    rfl, rfl, fun c hc => ?_, fun hpe hsp => ?_⟩
  · rw [run_spawn_call_eq base w args dir inp c hc]
  · unfold run_vagrant_command
    dsimp only [get_working_directory]
    rw [hpe base, hpe (path_join base "Vagrantfile"),
      hsp ("vagrant" :: args) (effective_stdin inp)]

/-- Witness for C7 at concrete inputs: the environment variable value is
honored, the default applies when it is absent, and a caller-supplied
directory parameter does not change the outcome. -/
theorem c7_working_directory_override_witness :
    resolve_base_projects_dir demo_env = "/mnt/projects"
    ∧ resolve_base_projects_dir (fun _ => none) = "/vagrant-projects"
    ∧ run_vagrant_command "/vagrant-projects" demo_world_ok ["status"] (some "/somewhere/else") none
        = run_vagrant_command "/vagrant-projects" demo_world_ok ["status"] none none := by
  refine ⟨?_, ?_, ?_⟩
  · exact (c7_working_directory_override demo_env "/mnt/projects" "/vagrant-projects"
      demo_world_ok demo_world_ok ["status"] none none none).1 (by decide)
  · exact (c7_working_directory_override (fun _ => none) "/mnt/projects" "/vagrant-projects"
      demo_world_ok demo_world_ok ["status"] none none none).2.1 rfl
  · exact (c7_working_directory_override demo_env "/mnt/projects" "/vagrant-projects"
      demo_world_ok demo_world_ok ["status"] (some "/somewhere/else") none none).2.2.2.1

/-- Counterexample for C8: the synthetic pre-flight result for a missing
directory carries no working-directory field, so not every Execution Result
carries all six fields; the command-line field of a normal result is the
single space-joined string, shown on a concrete run. -/
theorem c8_preflight_result_omits_working_directory :
    (run_vagrant_command "/vagrant-projects" demo_world_missing_dir ["status"] none none).1.working_directory = none
    ∧ (run_vagrant_command "/vagrant-projects" demo_world_ok ["status"] none none).1.command = "vagrant status" := by
  constructor
  · rfl
  · rfl

/-- C8 amended: every result carries the space-joined command line, the exit
code, stdout, stderr, and the success flag equal to the exit code comparison
with zero; the working-directory field is present and equal to the base
directory on every result of an attempted spawn, but is omitted from the
synthetic pre-flight results. -/
theorem c8_execution_result_fields_amended (base : String) (w : World)
    (args : List String) (dir inp : Option String) :
    ((run_vagrant_command base w args dir inp).1.command = join_space ("vagrant" :: args))
  ∧ ((run_vagrant_command base w args dir inp).1.success
      = ((run_vagrant_command base w args dir inp).1.return_code == 0))
  ∧ (w.path_exists base = false →
      (run_vagrant_command base w args dir inp).1.working_directory = none)
  ∧ (w.path_exists base = true → args.headD "" ≠ "global-status" →
      w.path_exists (path_join base "Vagrantfile") = false →
      (run_vagrant_command base w args dir inp).1.working_directory = none)
  ∧ (w.path_exists base = true →
      (args.headD "" = "global-status" ∨ w.path_exists (path_join base "Vagrantfile") = true) →
      (run_vagrant_command base w args dir inp).1.working_directory = some base) := by
  refine ⟨?_, run_success_eq base w args dir inp, fun hdir => ?_, fun hdir hgs hvf => ?_,
    fun hdir hor => ?_⟩
  · unfold run_vagrant_command
    dsimp only
    split
    · rfl
    · split
      · rfl
      · split <;> rfl
  · simp [run_vagrant_command, get_working_directory, hdir]
  · have hgs2 : args.head?.getD "" ≠ "global-status" := by simpa using hgs
    simp [run_vagrant_command, get_working_directory, hdir, hgs2, hvf]
  · unfold run_vagrant_command
    dsimp only [get_working_directory]
    rw [hdir]
    have hcond : (args.headD "" != "global-status"
        && !(w.path_exists (path_join base "Vagrantfile"))) = false := by
      rcases hor with h | h
      · have h2 : args.head?.getD "" = "global-status" := by simpa using h
        simp [h2]
      · simp [h]
    rw [hcond]
    simp only [Bool.not_true, Bool.false_eq_true, if_false]
    split <;> rfl

/-- Witness for C8 amended at concrete inputs: a passing pre-flight yields a
result carrying the base directory, a failing pre-flight yields one without
the working-directory field. -/
theorem c8_execution_result_fields_amended_witness :
    (run_vagrant_command "/vagrant-projects" demo_world_ok ["up"] none none).1.working_directory = some "/vagrant-projects"
    ∧ (run_vagrant_command "/vagrant-projects" demo_world_no_vagrantfile ["up"] none none).1.working_directory = none := by
  refine ⟨?_, ?_⟩
  · exact (c8_execution_result_fields_amended "/vagrant-projects" demo_world_ok
      ["up"] none none).2.2.2.2 (by decide) (Or.inr (by decide))
  · exact (c8_execution_result_fields_amended "/vagrant-projects" demo_world_no_vagrantfile
      ["up"] none none).2.2.2.1 (by decide) (by decide) (by decide)

/-- C9: a raised spawn exception is caught inside the runner and surfaced as
a failed result with exit code -1 carrying the message in the stderr field;
a raised validation error is caught at the dispatch boundary and converted
to a plain-text Error response; a successful handler response passes through
unchanged; and an unknown tool name becomes a plain-text Error response, so
no failure kind escapes as an uncaught fault. -/
theorem c9_failure_conversion (base : String) (w : World) (req : ToolRequest)
    (args : List String) (dir inp : Option String) (msg e r : String)
    (sc : Option SpawnCall) :
    (w.path_exists base = true →
     (args.headD "" = "global-status" ∨ w.path_exists (path_join base "Vagrantfile") = true) →
     w.spawn ("vagrant" :: args) base (effective_stdin inp) = .raised msg →
       run_vagrant_command base w args dir inp
         = ({ command := join_space ("vagrant" :: args), return_code := -1, stdout := "",
              stderr := msg, success := false, working_directory := some base },
            some { cmd := "vagrant" :: args, cwd := base, stdin := effective_stdin inp }))
  ∧ (dispatch_tool base w req = .error e → handle_call_tool base w req = "Error: " ++ e)
  ∧ (dispatch_tool base w req = .ok (r, sc) → handle_call_tool base w req = r)
  ∧ (∀ n : String, handle_call_tool base w (.unknown n) = "Error: " ++ ("Unknown tool: " ++ n)) := by
  refine ⟨fun hdir hor hraise => ?_, fun h => ?_, fun h => ?_, fun n => rfl⟩
  · unfold run_vagrant_command
    dsimp only [get_working_directory]
    rw [hdir]
    have hcond : (args.headD "" != "global-status"
        && !(w.path_exists (path_join base "Vagrantfile"))) = false := by
      rcases hor with h | h
      · have h2 : args.head?.getD "" = "global-status" := by simpa using h
        simp [h2]
      · simp [h]
    rw [hcond]
    simp only [Bool.not_true, Bool.false_eq_true, if_false]
    rw [hraise]
  · unfold handle_call_tool
    rw [h]
  · unfold handle_call_tool
    rw [h]

/-- Witness for C9 at concrete inputs: a raising spawn yields the structured
failed result, a missing required parameter yields a textual Error response,
and an unknown tool name yields a textual Error response. -/
theorem c9_failure_conversion_witness :
    run_vagrant_command "/vagrant-projects" demo_world_raise ["status"] none none
      = ({ command := "vagrant status", return_code := -1, stdout := "",
           stderr := "FileNotFoundError: vagrant", success := false,
           working_directory := some "/vagrant-projects" },
         some { cmd := ["vagrant", "status"], cwd := "/vagrant-projects", stdin := none })
    ∧ handle_call_tool "/vagrant-projects" demo_world_raise
        (.ssh { command := none, machine_name := none, directory := none })
      = "Error: " ++ "command parameter is required"
    ∧ handle_call_tool "/vagrant-projects" demo_world_ok (.unknown "vagrant_suspend")
      = "Error: " ++ ("Unknown tool: " ++ "vagrant_suspend") := by
  have h := c9_failure_conversion "/vagrant-projects" demo_world_raise
    (.ssh { command := none, machine_name := none, directory := none })
    ["status"] none none "FileNotFoundError: vagrant" "command parameter is required" "" none
  have h2 := c9_failure_conversion "/vagrant-projects" demo_world_ok
    (.unknown "vagrant_suspend") ["status"] none none "" "" "" none
  refine ⟨?_, ?_, ?_⟩
  · have hr := h.1 (by decide) (Or.inr (by decide)) (by decide)
    rw [hr]
    rfl
  · exact h.2.1 rfl
  · exact h2.2.2.2 "vagrant_suspend"

end VagrantMCP
